import Mathlib

/-!
Shallow embedding of the todo-list application core (src/app/index.tsx and
the near-duplicate variant in src/unnamed/part_001).

Modelling decisions:
* Task identifiers are JavaScript numbers produced by Math.random() or read
  back from storage; we model them as Int, which captures the two facts the
  code depends on: decidable equality (=== comparisons) and the falsiness of
  the number 0 in the `if (editingTodoId)` truthiness test.
* React component state (todos, todoText, searchQuery, editingTodoId,
  successMessage) becomes an explicit AppState record; each handler is a
  state-transition function. The fresh id from Math.random() is passed in as
  an explicit argument.
* AsyncStorage.setItem("my-todo", JSON.stringify(updatedTodos)) is modelled
  by a `storage : Option (List ToDoType)` field holding the decoded content
  of the persisted snapshot (none = never written).
* The setTimeout that clears successMessage after 3 seconds is a separate
  later timer event and is not part of any transition modelled here; the
  field holds the message emitted by the last mutating operation.
* JavaScript Array.prototype.reverse mutates its receiver in place. The
  FlatList data computation `filteredTodos.reverse()` therefore also mutates
  the `todos` state array whenever `filteredTodos` aliases it (empty search
  query). `renderTodoListData` returns both the displayed list and the
  content of the stored `todos` array after the render.
-/

namespace TodoApp

/-- Task record, `type ToDoType` from the source. -/
structure ToDoType where
  id : Int
  title : String
  isDone : Bool
deriving Repr, DecidableEq

/-- The component state held by the App function via useState hooks. -/
structure AppState where
  todos : List ToDoType
  todoText : String
  searchQuery : String
  editingTodoId : Option Int
  successMessage : String
  storage : Option (List ToDoType)
deriving Repr, DecidableEq

/-- `updateTodo` (src/unnamed/part_001 lines 57-65, inlined in
src/app/index.tsx lines 49-56): map over todos replacing the title of every
task whose id equals the current edit target, persist, emit the edited
message, clear the edit target. `eid` is the value of `editingTodoId`, known
non-null (and nonzero, by truthiness) at the call site. -/
def updateTodo (s : AppState) (eid : Int) : AppState :=
  let updatedTodos :=
    s.todos.map (fun todo =>
      if todo.id = eid then { todo with title := s.todoText } else todo)
  { s with todos := updatedTodos, storage := some updatedTodos,
           successMessage := "Todo edited successfully!",
           editingTodoId := none }

/-- `addTodo` (src/unnamed/part_001 lines 67-77, inlined in
src/app/index.tsx lines 58-67): append a new task with a fresh id (the
Math.random() result is the `newId` argument), `title` = the raw input text,
`isDone` = false; persist and emit the added message. -/
def addTodo (s : AppState) (newId : Int) : AppState :=
  let newTodo : ToDoType := { id := newId, title := s.todoText, isDone := false }
  let updatedTodos := s.todos ++ [newTodo]
  { s with todos := updatedTodos, storage := some updatedTodos,
           successMessage := "Todo added successfully!" }

/-- `resetTodoInput` (src/unnamed/part_001 lines 79-83): clear the input
text. Keyboard.dismiss and the message-clearing timer are presentation
effects outside the state model. -/
def resetTodoInput (s : AppState) : AppState :=
  { s with todoText := "" }

/-- Model of the guard `todoText.trim() === ""`: the trimmed string is
empty exactly when every character is whitespace. The source uses trim only
for this emptiness test, never to transform the stored text. -/
def isBlank (s : String) : Bool :=
  s.toList.all (fun c => c.isWhitespace)

/-- `addOrUpdateTodo` (src/app/index.tsx lines 45-75, src/unnamed/part_001
lines 45-55): reject blank input, then branch on the JavaScript truthiness
of `editingTodoId` (null and 0 are both falsy, so an edit target of 0 takes
the add branch), then reset the input text. -/
def addOrUpdateTodo (s : AppState) (newId : Int) : AppState :=
  if isBlank s.todoText then s
  else
    resetTodoInput
      (match s.editingTodoId with
       | some eid => if eid = 0 then addTodo s newId else updateTodo s eid
       | none => addTodo s newId)

/-- submit(text): the user types `text` into the bound input (setTodoText)
and presses the Add/Update button, which runs `addOrUpdateTodo`. -/
def submit (s : AppState) (text : String) (newId : Int) : AppState :=
  addOrUpdateTodo { s with todoText := text } newId

/-- `deleteTodo` (src/app/index.tsx lines 77-85): keep every task whose id
differs from `i`, persist, emit the deleted message. -/
def deleteTodo (s : AppState) (i : Int) : AppState :=
  let updatedTodos := s.todos.filter (fun todo => todo.id != i)
  { s with todos := updatedTodos, storage := some updatedTodos,
           successMessage := "Todo deleted successfully!" }

/-- `handleDone` (src/app/index.tsx lines 87-93): flip `isDone` on every
task whose id equals `i`, persist; no status message. -/
def handleDone (s : AppState) (i : Int) : AppState :=
  let updatedTodos :=
    s.todos.map (fun todo =>
      if todo.id = i then { todo with isDone := !todo.isDone } else todo)
  { s with todos := updatedTodos, storage := some updatedTodos }

/-- `editTodo` (src/app/index.tsx lines 95-98): set the edit target and seed
the input with the current title. -/
def editTodo (s : AppState) (i : Int) (title : String) : AppState :=
  { s with editingTodoId := some i, todoText := title }

/-- Does the character list `hay` start with `pat`? Model of the first-index
check underlying JavaScript String.prototype.includes. -/
def startsWithChars : List Char → List Char → Bool
  | _, [] => true
  | [], _ :: _ => false
  | a :: as, b :: bs => (a == b) && startsWithChars as bs

/-- Does `pat` occur contiguously inside `hay`? -/
def containsChars : List Char → List Char → Bool
  | [], pat => startsWithChars [] pat
  | a :: as, pat => startsWithChars (a :: as) pat || containsChars as pat

/-- JavaScript `s.includes(pat)`: substring containment. -/
def jsIncludes (s pat : String) : Bool :=
  containsChars s.toList pat.toList

/-- `filteredTodos` (src/app/index.tsx lines 100-104): if the query string
is truthy (non-empty), filter by case-insensitive substring match on the
title; otherwise the `todos` array itself. -/
def filteredTodos (todos : List ToDoType) (searchQuery : String) : List ToDoType :=
  if searchQuery != "" then
    todos.filter (fun todo => jsIncludes todo.title.toLower searchQuery.toLower)
  else
    todos

/-- The FlatList data computation `filteredTodos.reverse()`
(src/app/index.tsx line 118; src/unnamed/part_001 line 162).
Array.prototype.reverse reverses its receiver in place and returns it; when
the query is falsy, `filteredTodos` is the `todos` state array itself, so
the stored collection is reversed in place. When the query is truthy,
`filter` has produced a fresh array and `todos` is untouched. The result is
(data shown by the list, content of the stored todos array after the
render). -/
def renderTodoListData (todos : List ToDoType) (searchQuery : String) :
    List ToDoType × List ToDoType :=
  if searchQuery != "" then
    ((todos.filter (fun todo =>
        jsIncludes todo.title.toLower searchQuery.toLower)).reverse,
     todos)
  else
    (todos.reverse, todos.reverse)

/-! Helper lemmas shared by the claim theorems. -/

/-- Mapping an involutive function twice over a list is the identity. -/
theorem map_involutive_apply {α : Type} (f : α → α) (hf : ∀ a, f (f a) = a) :
    ∀ l : List α, (l.map f).map f = l := by
  intro l
  induction l with
  | nil => rfl
  | cons a l ih => simp [hf a, ih]

/-- The title-replacing map of `updateTodo` is the identity when no task in
the list carries the edit target id. -/
theorem map_update_no_match (l : List ToDoType) (i : Int) (text : String)
    (h : ∀ t ∈ l, t.id ≠ i) :
    l.map (fun t => if t.id = i then { t with title := text } else t) = l := by
  induction l with
  | nil => rfl
  | cons t l ih =>
    have ht : t.id ≠ i := h t (by simp)
    have hl : ∀ a ∈ l, a.id ≠ i := fun a ha => h a (by simp [ha])
    simp [List.map_cons, if_neg ht, ih hl]

/-- The tasks kept by `deleteTodo` and the tasks matching the deleted id
partition the list by length. -/
theorem length_filter_id_split (l : List ToDoType) (i : Int) :
    (l.filter (fun t => t.id != i)).length
      + (l.filter (fun t => t.id == i)).length = l.length := by
  induction l with
  | nil => rfl
  | cons t l ih =>
    by_cases h : t.id = i <;> simp [List.filter_cons, h] <;> omega

/-- `startsWithChars hay pat` decides whether `pat` comes first in `hay`. -/
theorem startsWithChars_iff (hay pat : List Char) :
    startsWithChars hay pat = true ↔ pat <+: hay := by
  induction hay generalizing pat with
  | nil =>
    cases pat with
    | nil => simp [startsWithChars]
    | cons b bs => simp [startsWithChars]
  | cons a as ih =>
    cases pat with
    | nil => simp [startsWithChars]
    | cons b bs =>
      simp only [startsWithChars, Bool.and_eq_true, beq_iff_eq, ih bs,
        List.cons_prefix_cons]
      constructor
      · rintro ⟨h1, h2⟩
        exact ⟨h1.symm, h2⟩
      · rintro ⟨h1, h2⟩
        exact ⟨h1.symm, h2⟩

/-- `containsChars hay pat` decides contiguous containment of `pat` in
`hay`. -/
theorem containsChars_iff (hay pat : List Char) :
    containsChars hay pat = true ↔ pat <:+: hay := by
  induction hay with
  | nil =>
    simp [containsChars, startsWithChars_iff]
  | cons a as ih =>
    simp only [containsChars, Bool.or_eq_true, startsWithChars_iff, ih]
    rw [ List.infix_cons_iff]

/-- Lowercasing a string lowercases its character list. -/
theorem toLower_toList (s : String) :
    s.toLower.toList = s.toList.map Char.toLower := by
  rw [String.toLower, String.map_eq]
  rfl

/-- `jsIncludes` agrees with the mathematical substring relation on the
underlying character lists. -/
theorem jsIncludes_eq_decide (s pat : String) :
    jsIncludes s pat = decide (pat.toList <:+: s.toList) := by
  by_cases hp : pat.toList <:+: s.toList
  · rw [jsIncludes, (containsChars_iff s.toList pat.toList).mpr hp,
      decide_eq_true hp]
  · rw [decide_eq_false hp]
    exact Bool.eq_false_iff.mpr
      (fun hT => hp ((containsChars_iff s.toList pat.toList).mp hT))

/-! Claim theorems. -/

/-- C4: for every state with no edit target and every text whose trimmed
form is non-empty, submit(text) appends at the end exactly one new task with
isDone = false and title equal to the raw untrimmed text, so the collection
length grows by exactly 1. -/
theorem submit_appends (s : AppState) (text : String) (newId : Int)
    (ht : isBlank text = false) (he : s.editingTodoId = none) :
    (submit s text newId).todos
        = s.todos ++ [{ id := newId, title := text, isDone := false }]
    ∧ (submit s text newId).todos.length = s.todos.length + 1 := by
  unfold submit addOrUpdateTodo
  simp [he, ht, addTodo, resetTodoInput]

/-- Witness for C4 at the empty state with text "hi" and fresh id 3. -/
theorem submit_appends_witness :
    (submit (⟨[], "", "", none, "", none⟩ : AppState) "hi" 3).todos
        = [] ++ [{ id := 3, title := "hi", isDone := false }]
    ∧ (submit (⟨[], "", "", none, "", none⟩ : AppState) "hi" 3).todos.length
        = List.length ([] : List ToDoType) + 1 :=
  submit_appends ⟨[], "", "", none, "", none⟩ "hi" 3 (by decide) rfl

/-- C5: for every text that trims to empty, submit(text) changes neither the
collection, nor the edit target, nor the persisted snapshot. -/
theorem submit_blank_noop (s : AppState) (text : String) (newId : Int)
    (ht : isBlank text = true) :
    (submit s text newId).todos = s.todos
    ∧ (submit s text newId).editingTodoId = s.editingTodoId
    ∧ (submit s text newId).storage = s.storage := by
  unfold submit addOrUpdateTodo
  simp [ht]

/-- Witness for C5 at a one-task state in edit mode with all-blank text. -/
theorem submit_blank_noop_witness :
    (submit (⟨[⟨1, "a", false⟩], "", "", some 1, "", none⟩ : AppState)
        "  " 3).todos = [⟨1, "a", false⟩]
    ∧ (submit (⟨[⟨1, "a", false⟩], "", "", some 1, "", none⟩ : AppState)
        "  " 3).editingTodoId = some 1
    ∧ (submit (⟨[⟨1, "a", false⟩], "", "", some 1, "", none⟩ : AppState)
        "  " 3).storage = none :=
  submit_blank_noop ⟨[⟨1, "a", false⟩], "", "", some 1, "", none⟩ "  " 3
    (by decide)

/-- C7: toggling the same id twice returns the collection to exactly its
original value, every field of every task included. -/
theorem handleDone_involutive (s : AppState) (i : Int) :
    (handleDone (handleDone s i) i).todos = s.todos := by
  simp only [handleDone]
  exact map_involutive_apply _
    (fun t => by
      cases t with
      | mk tid ttitle tdone => by_cases h : tid = i <;> simp [h])
    s.todos

/-- C8: deleting an id a second time leaves the collection of the first
deletion unchanged, and deleting an id that no task carries leaves the
collection unchanged. -/
theorem deleteTodo_idem (s : AppState) (i : Int) :
    (deleteTodo (deleteTodo s i) i).todos = (deleteTodo s i).todos
    ∧ ((∀ t ∈ s.todos, t.id ≠ i) → (deleteTodo s i).todos = s.todos) := by
  constructor
  · simp [deleteTodo, List.filter_filter]
  · intro h
    simp only [deleteTodo]
    exact List.filter_eq_self.mpr (fun a ha => bne_iff_ne.mpr (h a ha))

/-- Witness for C8: double deletion of id 5, absent from the collection. -/
theorem deleteTodo_idem_witness :
    (deleteTodo (deleteTodo
        (⟨[⟨1, "a", false⟩], "", "", none, "", none⟩ : AppState) 5) 5).todos
      = (deleteTodo
        (⟨[⟨1, "a", false⟩], "", "", none, "", none⟩ : AppState) 5).todos
    ∧ (deleteTodo
        (⟨[⟨1, "a", false⟩], "", "", none, "", none⟩ : AppState) 5).todos
      = [⟨1, "a", false⟩] :=
  ⟨(deleteTodo_idem ⟨[⟨1, "a", false⟩], "", "", none, "", none⟩ 5).1,
   (deleteTodo_idem ⟨[⟨1, "a", false⟩], "", "", none, "", none⟩ 5).2
     (by decide)⟩

/-- C10: when a task has identifier 0, beginEdit(0, title) followed by
submit with non-empty text takes the add branch (0 is falsy in the
`if (editingTodoId)` test), appending a new task and leaving every stored
task, in particular the id-0 task and its title, unchanged. -/
theorem submit_after_edit_zero (s : AppState) (title text : String)
    (newId : Int) (ht : isBlank text = false) :
    (submit (editTodo s 0 title) text newId).todos
      = s.todos ++ [{ id := newId, title := text, isDone := false }] := by
  unfold submit editTodo addOrUpdateTodo
  simp [ht, addTodo, resetTodoInput]

/-- Witness for C10: editing the id-0 task then submitting new text appends
instead of updating. -/
theorem submit_after_edit_zero_witness :
    (submit (editTodo
        (⟨[⟨0, "keep", false⟩], "", "", none, "", none⟩ : AppState)
        0 "keep") "new" 4).todos
      = [⟨0, "keep", false⟩] ++ [{ id := 4, title := "new", isDone := false }] :=
  submit_after_edit_zero ⟨[⟨0, "keep", false⟩], "", "", none, "", none⟩
    "keep" "new" 4 (by decide)

/-- C2 counterexample: with edit target 2 and a collection holding only a
task with id 1, submitting non-blank text is not a no-op as the claim
states: the edit target is cleared and a status message is emitted. -/
theorem submit_stale_not_noop :
    (submit (⟨[⟨1, "a", false⟩], "", "", some 2, "", none⟩ : AppState)
        "b" 9).editingTodoId
      ≠ (⟨[⟨1, "a", false⟩], "", "", some 2, "", none⟩ : AppState).editingTodoId
    ∧ (submit (⟨[⟨1, "a", false⟩], "", "", some 2, "", none⟩ : AppState)
        "b" 9).successMessage ≠ "" := by
  constructor
  · decide
  · decide

/-- C2 amended: for non-blank text and a nonzero edit target matching no
task, submit leaves the collection unchanged but clears the edit target,
rewrites the snapshot with the unchanged collection, and emits the edited
status message. -/
theorem submit_stale_target (s : AppState) (eid : Int) (text : String)
    (newId : Int) (heid : s.editingTodoId = some eid) (hz : eid ≠ 0)
    (hstale : ∀ t ∈ s.todos, t.id ≠ eid) (ht : isBlank text = false) :
    (submit s text newId).todos = s.todos
    ∧ (submit s text newId).editingTodoId = none
    ∧ (submit s text newId).storage = some s.todos
    ∧ (submit s text newId).successMessage = "Todo edited successfully!" := by
  unfold submit addOrUpdateTodo
  simp [heid, ht, hz, updateTodo, resetTodoInput,
    map_update_no_match s.todos eid text hstale]

/-- Witness for the amended C2 at edit target 2 over a single id-1 task. -/
theorem submit_stale_target_witness :
    (submit (⟨[⟨1, "a", false⟩], "", "", some 2, "", none⟩ : AppState)
        "b" 9).todos = [⟨1, "a", false⟩]
    ∧ (submit (⟨[⟨1, "a", false⟩], "", "", some 2, "", none⟩ : AppState)
        "b" 9).editingTodoId = none
    ∧ (submit (⟨[⟨1, "a", false⟩], "", "", some 2, "", none⟩ : AppState)
        "b" 9).storage = some [⟨1, "a", false⟩]
    ∧ (submit (⟨[⟨1, "a", false⟩], "", "", some 2, "", none⟩ : AppState)
        "b" 9).successMessage = "Todo edited successfully!" :=
  submit_stale_target ⟨[⟨1, "a", false⟩], "", "", some 2, "", none⟩ 2 "b" 9
    rfl (by decide) (by decide) (by decide)

/-- C3 counterexample: a task with identifier 0 is present and is the edit
target, yet submitting "b" does not produce the collection with that title
replaced in place; the add branch runs instead. -/
theorem submit_zero_target_not_update :
    (submit (⟨[⟨0, "a", false⟩], "", "", some 0, "", none⟩ : AppState)
        "b" 7).todos ≠ [⟨0, "b", false⟩] := by
  decide

/-- C3 amended: for a nonzero edit target carried by some task in the
collection and non-blank text, submit keeps the collection length, replaces
the title of exactly the matching tasks (position, id and isDone untouched),
leaves every non-matching task unchanged, and clears the edit target. -/
theorem submit_updates_matching (s : AppState) (eid : Int) (text : String)
    (newId : Int) (heid : s.editingTodoId = some eid) (hz : eid ≠ 0)
    (_hmem : ∃ t ∈ s.todos, t.id = eid) (ht : isBlank text = false) :
    (submit s text newId).todos.length = s.todos.length
    ∧ (∀ j : Nat, (submit s text newId).todos[j]?
        = (s.todos[j]?).map
            (fun t => if t.id = eid then { t with title := text } else t))
    ∧ (submit s text newId).editingTodoId = none := by
  unfold submit addOrUpdateTodo
  simp [heid, ht, hz, updateTodo, resetTodoInput]

/-- Witness for the amended C3: editing the only task, id 1, to title "b". -/
theorem submit_updates_matching_witness :
    (submit (⟨[⟨1, "a", false⟩], "", "", some 1, "", none⟩ : AppState)
        "b" 9).todos.length = List.length [(⟨1, "a", false⟩ : ToDoType)]
    ∧ (∀ j : Nat,
        (submit (⟨[⟨1, "a", false⟩], "", "", some 1, "", none⟩ : AppState)
            "b" 9).todos[j]?
          = ([(⟨1, "a", false⟩ : ToDoType)][j]?).map
              (fun t => if t.id = 1 then { t with title := "b" } else t))
    ∧ (submit (⟨[⟨1, "a", false⟩], "", "", some 1, "", none⟩ : AppState)
        "b" 9).editingTodoId = none :=
  submit_updates_matching ⟨[⟨1, "a", false⟩], "", "", some 1, "", none⟩ 1
    "b" 9 rfl (by decide) (by decide) (by decide)

/-- C6: search is exactly the order-preserving filter keeping the tasks
whose lowercased title contains the lowercased query as a contiguous
substring, and the empty query returns the input collection itself. -/
theorem filteredTodos_spec (todos : List ToDoType) (q : String) :
    filteredTodos todos q
        = todos.filter
            (fun t => decide (q.toLower.toList <:+: t.title.toLower.toList))
    ∧ filteredTodos todos "" = todos := by
  constructor
  · by_cases hq : q = ""
    · subst hq
      have h0 : "".toLower.toList = ([] : List Char) := by
        rw [toLower_toList]
        rfl
      simp only [filteredTodos, bne_self_eq_false, Bool.false_eq_true,
        if_false, h0]
      exact (List.filter_eq_self.mpr (fun a _ => by simp)).symm
    · simp [filteredTodos, bne_iff_ne, hq, jsIncludes_eq_decide]
  · simp [filteredTodos]

/-- C9: when several tasks share an identifier, deleteTodo removes every
task carrying it in one call (the survivors are exactly the non-carriers),
and handleDone flips isDone at every position carrying it in one call,
leaving the other positions untouched. -/
theorem duplicate_ids_all_matches (s : AppState) (i : Int)
    (_hdup : 2 ≤ (s.todos.filter (fun t => t.id == i)).length) :
    (∀ t ∈ (deleteTodo s i).todos, t.id ≠ i)
    ∧ (deleteTodo s i).todos.length
        + (s.todos.filter (fun t => t.id == i)).length = s.todos.length
    ∧ (∀ j : Nat, (handleDone s i).todos[j]?
        = (s.todos[j]?).map
            (fun t => if t.id = i then { t with isDone := !t.isDone } else t)) := by
  refine ⟨?_, ?_, ?_⟩
  · intro t htmem
    simp only [deleteTodo, List.mem_filter] at htmem
    exact bne_iff_ne.mp htmem.2
  · exact length_filter_id_split s.todos i
  · intro j
    simp [handleDone]

/-- Witness for C9 on two tasks both carrying identifier 5. -/
theorem duplicate_ids_all_matches_witness :
    (∀ t ∈ (deleteTodo
        (⟨[⟨5, "a", false⟩, ⟨5, "b", true⟩], "", "", none, "", none⟩ :
          AppState) 5).todos, t.id ≠ 5)
    ∧ (deleteTodo
        (⟨[⟨5, "a", false⟩, ⟨5, "b", true⟩], "", "", none, "", none⟩ :
          AppState) 5).todos.length
        + ([(⟨5, "a", false⟩ : ToDoType), ⟨5, "b", true⟩].filter
            (fun t => t.id == 5)).length
        = List.length [(⟨5, "a", false⟩ : ToDoType), ⟨5, "b", true⟩]
    ∧ (∀ j : Nat, (handleDone
        (⟨[⟨5, "a", false⟩, ⟨5, "b", true⟩], "", "", none, "", none⟩ :
          AppState) 5).todos[j]?
        = ([(⟨5, "a", false⟩ : ToDoType), ⟨5, "b", true⟩][j]?).map
            (fun t => if t.id = 5 then { t with isDone := !t.isDone } else t)) :=
  duplicate_ids_all_matches
    ⟨[⟨5, "a", false⟩, ⟨5, "b", true⟩], "", "", none, "", none⟩ 5 (by decide)

/-- C1: evaluating the FlatList data computation at a stored collection of
two tasks and an empty query shows that the stored todos array itself ends
up reversed, so the display projection does mutate the stored collection. -/
theorem renderTodoListData_mutates_stored :
    (renderTodoListData [⟨1, "a", false⟩, ⟨2, "b", false⟩] "").2
        = [⟨2, "b", false⟩, ⟨1, "a", false⟩]
    ∧ (renderTodoListData [⟨1, "a", false⟩, ⟨2, "b", false⟩] "").2
        ≠ [⟨1, "a", false⟩, ⟨2, "b", false⟩] := by
  constructor
  · rfl
  · decide

end TodoApp
